import Mathlib

/-!
Verification of the speaker-identification toolkit against its design
specification.  The definitions below are shallow embeddings of the Python
sources (cross-rererence.py, identify-speaker.py, isolate-trim.py); each
definition's doc comment names the source function and lines it embeds.
Machine floats are modelled by exact rationals, integer arithmetic by Nat/Int
with explicit floor division where the source truncates.
-/

namespace Toolkit

/-! ## Cross-file clusterer: resolved cluster count
    (cross-rererence.py, `cluster_embeddings`, lines 367-425) -/

/-- One embedding-metadata record, as built in `cluster_embeddings`
(cross-rererence.py lines 376-384).  The embedding vector itself plays no
role in the cluster-count computation, so it is omitted here; `stop` renders
the source's `end` field (a Lean keyword). -/
structure EmbRecord where
  file : String
  original_speaker : String
  start : ℚ
  stop : ℚ
deriving DecidableEq, Repr

/-- Number of distinct local speaker labels in the metadata:
`len(set(m["original_speaker"] for m in metadata))`
(cross-rererence.py line 392). -/
def uniqueSpeakers (md : List EmbRecord) : Nat :=
  (md.map (fun m => m.original_speaker)).dedup.length

/-- The cluster count resolved by `cluster_embeddings` when `n_clusters` is
not supplied (cross-rererence.py lines 390-401):
`min_clusters = max(2, u // 2)`, `max_clusters = min(u * 2, len(X) // 2)`,
`n_clusters = min(max(min_clusters, int(u * 1.2)), max_clusters)`.
Python's `int(u * 1.2)` truncates the float product toward zero; for every
count `u` below 2^50 the IEEE-754 double product `u * 1.2` truncates to
`⌊6u/5⌋`, rendered here as `u * 12 / 10` in Nat floor division. -/
def resolvedNClusters (md : List EmbRecord) : Nat :=
  let u := uniqueSpeakers md
  let minClusters := max 2 (u / 2)
  let maxClusters := min (u * 2) (md.length / 2)
  min (max minClusters (u * 12 / 10)) maxClusters

/-- A convenience constructor for metadata records whose times are irrelevant
to the cluster count. -/
def mkRec (f s : String) : EmbRecord := ⟨f, s, 0, 1⟩

/-- Scenario B of the spec: 10 embeddings drawn from 3 distinct local
speaker labels. -/
def scenarioB : List EmbRecord :=
  [mkRec "a.wav" "S1", mkRec "a.wav" "S1", mkRec "a.wav" "S1", mkRec "a.wav" "S1",
   mkRec "b.wav" "S2", mkRec "b.wav" "S2", mkRec "b.wav" "S2",
   mkRec "c.wav" "S3", mkRec "c.wav" "S3", mkRec "c.wav" "S3"]

/-- Two embeddings carrying a single local speaker label: the smallest
population on which the default cluster count goes below 2. -/
def tinyPair : List EmbRecord := [mkRec "a.wav" "S1", mkRec "a.wav" "S1"]

/-- Claim C1, counterexample: on 10 embeddings from 3 distinct local speaker
labels the code resolves 3 clusters, while the claim's formula
`clamp(round(1.2 x 3), max(2,1), min(6,5))` (nearest-integer rounding,
`(u*12+5)/10 = 4`) predicts 4. -/
theorem C1_counterexample :
    resolvedNClusters scenarioB = 3 ∧
    min (max (max 2 (uniqueSpeakers scenarioB / 2))
         ((uniqueSpeakers scenarioB * 12 + 5) / 10))
      (min (uniqueSpeakers scenarioB * 2) (scenarioB.length / 2)) = 4 ∧
    (3 : Nat) ≠ 4 := by
  refine ⟨by decide, by decide, by decide⟩

/-- Claim C1 (amended): the resolved cluster count equals
`clamp(trunc(1.2 x unique_local_speakers), min_clusters, max_clusters)` with
truncation (not nearest-integer rounding), where
`min_clusters = max(2, u/2)` and `max_clusters = min(2u, N/2)` in floor
division; in particular 10 embeddings from 3 distinct local speaker labels
resolve to 3 clusters. -/
theorem C1_cluster_count_formula (md : List EmbRecord) :
    resolvedNClusters md =
      min (max (max 2 (uniqueSpeakers md / 2)) (uniqueSpeakers md * 12 / 10))
        (min (uniqueSpeakers md * 2) (md.length / 2)) ∧
    resolvedNClusters scenarioB = 3 := by
  exact ⟨rfl, by decide⟩

/-- Claim C2, counterexample: on the non-empty population of 2 embeddings
from a single local speaker label, the resolved cluster count is 1, violating
the claimed lower bound `2 ≤ n_clusters`. -/
theorem C2_counterexample :
    tinyPair ≠ [] ∧ resolvedNClusters tinyPair = 1 ∧
    ¬ 2 ≤ resolvedNClusters tinyPair := by
  refine ⟨by decide, by decide, by decide⟩

/-- Claim C2 (amended): whenever the population holds at least 4 embeddings,
the resolved cluster count satisfies `2 ≤ n_clusters ≤ ⌊N/2⌋`; with 3 or
fewer embeddings the lower bound can fail. -/
theorem C2_cluster_count_bound (md : List EmbRecord) (h4 : 4 ≤ md.length) :
    2 ≤ resolvedNClusters md ∧ resolvedNClusters md ≤ md.length / 2 := by
  have hne : md ≠ [] := by
    intro h
    rw [h] at h4
    simp at h4
  have hu : 1 ≤ uniqueSpeakers md := by
    have hmap : md.map (fun m => m.original_speaker) ≠ [] := by
      simpa using hne
    have : (md.map (fun m => m.original_speaker)).dedup ≠ [] := by
      intro h
      exact hmap ((List.dedup_eq_nil _).mp h)
    have := List.length_pos.mpr this
    simpa [uniqueSpeakers] using this
  constructor
  · unfold resolvedNClusters
    refine le_min ?_ ?_
    · exact le_trans (le_max_left 2 _) (le_max_left _ _)
    · refine le_min ?_ ?_
      · omega
      · omega
  · unfold resolvedNClusters
    exact le_trans (min_le_right _ _) (min_le_right _ _)

/-- Witness for C2 (amended) at a concrete 4-embedding population. -/
theorem C2_cluster_count_bound_witness :
    2 ≤ resolvedNClusters (tinyPair ++ tinyPair) ∧
    resolvedNClusters (tinyPair ++ tinyPair) ≤ (tinyPair ++ tinyPair).length / 2 :=
  C2_cluster_count_bound (tinyPair ++ tinyPair) (by decide)

/-! ## Per-file identification state machine
    (identify-speaker.py, `process_file`, lines 278-527) -/

/-- One diarized segment `{speaker, start, end}` from a file's JSON list
(spec section 3); `stop` renders the source's `end` field. -/
structure Segment where
  speaker : String
  start : ℚ
  stop : ℚ
deriving DecidableEq, Repr

/-- Minimum clip length in seconds (identify-speaker.py line 185). -/
def MIN_CLIP_LENGTH : ℚ := 1

/-- Maximum clip length in seconds (identify-speaker.py line 186). -/
def MAX_CLIP_LENGTH : ℚ := 5

/-- The validity filter applied before a segment may be presented:
`MIN_CLIP_LENGTH <= duration <= MAX_CLIP_LENGTH`
(identify-speaker.py lines 336, 431, 460). -/
def validClip (s : Segment) : Bool :=
  decide (MIN_CLIP_LENGTH ≤ s.stop - s.start) && decide (s.stop - s.start ≤ MAX_CLIP_LENGTH)

/-- The segment presented first for a speaker: the middle element of the
speaker's valid segments, `valid_segments[len(valid_segments) // 2]`
(identify-speaker.py lines 330-345); `none` when the speaker has no valid
segment, in which case the code skips the speaker. -/
def initialSegment (segs : List Segment) : Option Segment :=
  let v := segs.filter validClip
  v[v.length / 2]?

/-- State of the interaction loop inside `process_file` for the current
speaker (identify-speaker.py lines 318-367): the file being processed, the
current speaker and their segment list, the segment on screen, the set of
segment starts already seen, the repeat flag, the rejected speakers
(`identified_speakers`), the mapping table rows (`df_mapping`, one
`(wav_file, speaker)` pair per row) and the checked-speaker counter. -/
structure LoopState where
  wavFile : String
  speaker : String
  speakerSegs : List Segment
  segment : Segment
  seen : List ℚ
  repeating : Bool
  identified : List String
  mapping : List (String × String)
  speakersChecked : Nat
deriving DecidableEq, Repr

/-- Outcome of one user command inside the interaction loop: stay in the
loop (`cont`), leave the current speaker's loop (`breakSpk`), or return from
`process_file` with a segment count, the mapping and the exit-requested flag
(`ret`). -/
inductive StepOut where
  | cont (st : LoopState)
  | breakSpk (st : LoopState)
  | ret (count : Nat) (mapping : List (String × String)) (exitReq : Bool)
deriving DecidableEq, Repr

/-- Upsert of the `(wav_file, speaker)` target mapping on confirm
(identify-speaker.py lines 380-391): update every row whose `wav_file`
matches, else append a new row. -/
def upsertMapping (m : List (String × String)) (wav spk : String) :
    List (String × String) :=
  if m.any (fun p => p.1 == wav) then
    m.map (fun p => if p.1 == wav then (p.1, spk) else p)
  else m ++ [(wav, spk)]

/-- Effect of the reject command `n` on the loop state
(identify-speaker.py lines 411-418): the current speaker joins
`identified_speakers` and the checked counter advances; no mapping row and
no segment data change. -/
def rejectSpeaker (st : LoopState) : LoopState :=
  {st with identified := st.identified ++ [st.speaker],
           speakersChecked := st.speakersChecked + 1}

/-- Index of the segment on screen inside the speaker's list,
`speaker_segs.index(segment)` (identify-speaker.py line 429): first position
holding an equal segment. -/
def uCurrentIndex (st : LoopState) : Nat :=
  st.speakerSegs.findIdx (fun s => s == st.segment)

/-- The later valid segments of the current speaker,
`[s for s in speaker_segs[current_index+1:] if MIN <= dur <= MAX]`
(identify-speaker.py lines 430-431). -/
def uNextSegs (st : LoopState) : List Segment :=
  (st.speakerSegs.drop (uCurrentIndex st + 1)).filter validClip

/-- Advancing to the next segment `next_segments[0]` on command `u`
(identify-speaker.py lines 433-456): flag repetition when its start was
already seen, otherwise record the start as seen. -/
def uAdvance (st : LoopState) (seg1 : Segment) : LoopState :=
  if st.seen.contains seg1.start then
    {st with segment := seg1, repeating := true}
  else
    {st with segment := seg1, seen := st.seen ++ [seg1.start], repeating := false}

/-- Full effect of command `u` (identify-speaker.py lines 427-484): advance
to the next later valid segment if one exists; otherwise restart from the
speaker's first valid segment with the repeat flag set and the seen set
reset; if the speaker has no valid segment at all, leave the loop without
any other change. -/
def uStep (st : LoopState) : StepOut :=
  match uNextSegs st with
  | seg1 :: _ => .cont (uAdvance st seg1)
  | [] =>
    match st.speakerSegs.filter validClip with
    | seg1 :: _ => .cont {st with segment := seg1, seen := [seg1.start], repeating := true}
    | [] => .breakSpk st

/-- One user command of the interaction loop (identify-speaker.py lines
377-497): `y` confirms the target and returns, `n` rejects the speaker,
`a` replays (no state change), `u` moves to the next segment of the same
speaker, `x` stops the whole run, anything else re-prompts. -/
def step (st : LoopState) (cmd : String) : StepOut :=
  match cmd with
  | "y" => .ret 1 (upsertMapping st.mapping st.wavFile st.speaker) false
  | "n" => .breakSpk (rejectSpeaker st)
  | "a" => .cont st
  | "u" => uStep st
  | "x" => .ret 0 st.mapping true
  | _ => .cont st

/-- Per-segment identification status (spec section 3). -/
inductive IdStatus where
  | unprocessed
  | targeted
  | not_targeted
deriving DecidableEq, Repr

/-- Modelled from the spec: the per-segment `identification_status` of the
Segment Store (spec section 3) is absent from the code, which keeps only the
rejected-speaker set `identified_speakers` and the `(wav_file, speaker)`
target mapping; the status of a segment is derived from those as the spec's
data model prescribes: targeted when its file-speaker pair is the recorded
target, not_targeted when its speaker was rejected, else unprocessed. -/
def segStatus (identified : List String) (mapping : List (String × String))
    (wavFile : String) (seg : Segment) : IdStatus :=
  if (wavFile, seg.speaker) ∈ mapping then IdStatus.targeted
  else if seg.speaker ∈ identified then IdStatus.not_targeted
  else IdStatus.unprocessed

/-- Claim C4: rejecting speaker S at segment index i marks every segment of
S at an index beyond i as not_targeted, and leaves every already-decided
segment at an index before i unchanged.  The hypothesis that the mapping
holds no row for the current file is the reachable situation: `process_file`
only runs on files absent from the mapping and returns as soon as a target
is confirmed. -/
theorem C4_reject_cascade (st : LoopState) (fileSegs : List Segment) (i : Nat)
    (hno : ∀ p ∈ st.mapping, p.1 ≠ st.wavFile) :
    step st "n" = StepOut.breakSpk (rejectSpeaker st) ∧
    (∀ j (h : j < fileSegs.length), i < j →
       fileSegs[j].speaker = st.speaker →
       segStatus (rejectSpeaker st).identified (rejectSpeaker st).mapping
         st.wavFile fileSegs[j] = IdStatus.not_targeted) ∧
    (∀ j (h : j < fileSegs.length), j < i →
       segStatus st.identified st.mapping st.wavFile fileSegs[j] ≠
         IdStatus.unprocessed →
       segStatus (rejectSpeaker st).identified (rejectSpeaker st).mapping
         st.wavFile fileSegs[j] =
       segStatus st.identified st.mapping st.wavFile fileSegs[j]) := by
  refine ⟨rfl, ?_, ?_⟩
  · intro j h _ hspk
    have hnm : (st.wavFile, st.speaker) ∉ st.mapping := by
      intro hmem
      exact hno _ hmem rfl
    simp [segStatus, rejectSpeaker, hnm, hspk]
  · intro j h _ hdec
    by_cases hm : (st.wavFile, fileSegs[j].speaker) ∈ st.mapping
    · simp [segStatus, rejectSpeaker, hm]
    · by_cases hid : fileSegs[j].speaker ∈ st.identified
      · simp [segStatus, rejectSpeaker, hm, hid]
      · exact absurd (by simp [segStatus, hm, hid]) hdec

/-- Concrete file for the C4 witness: speaker B then two A segments. -/
def c4fileSegs : List Segment := [⟨"B", 0, 2⟩, ⟨"A", 2, 4⟩, ⟨"A", 6, 8⟩]

/-- Concrete loop state for the C4 witness: speaker A is on screen at file
index 1, nothing rejected or mapped yet. -/
def c4st : LoopState :=
  ⟨"f.wav", "A", [⟨"A", 2, 4⟩, ⟨"A", 6, 8⟩], ⟨"A", 2, 4⟩, [2], false, [], [], 0⟩

/-- Witness for C4: rejecting speaker A at index 1 of the concrete file
drives the A segment at index 2 to not_targeted. -/
theorem C4_reject_cascade_witness :
    step c4st "n" = StepOut.breakSpk (rejectSpeaker c4st) ∧
    segStatus (rejectSpeaker c4st).identified (rejectSpeaker c4st).mapping
      c4st.wavFile (Segment.mk "A" 6 8) = IdStatus.not_targeted := by
  have h := C4_reject_cascade c4st c4fileSegs 1 (by simp [c4st])
  refine ⟨h.1, ?_⟩
  have h2 := h.2.1 2 (by decide) (by decide) (by with_unfolding_all rfl)
  simpa [c4fileSegs] using h2

/-- Concrete state for the C3 counterexample: speaker A has a single valid
segment, already seen, on screen. -/
def c3st : LoopState :=
  ⟨"f.wav", "A", [⟨"A", 0, 2⟩], ⟨"A", 0, 2⟩, [0], false, [], [], 0⟩

/-- Claim C3, counterexample: with no further segment for the current
speaker, command `u` does not behave as reject-speaker: it continues on the
same speaker, restarting from its first valid segment with the repeat flag
set, while reject-speaker would leave the speaker's loop with the speaker
marked rejected. -/
theorem C3_counterexample :
    uNextSegs c3st = [] ∧
    step c3st "u" = StepOut.cont {c3st with seen := [0], repeating := true} ∧
    step c3st "n" = StepOut.breakSpk (rejectSpeaker c3st) ∧
    step c3st "u" ≠ step c3st "n" := by
  have hu : step c3st "u" = StepOut.cont {c3st with seen := [0], repeating := true} := by
    with_unfolding_all rfl
  have hn : step c3st "n" = StepOut.breakSpk (rejectSpeaker c3st) := rfl
  refine ⟨by with_unfolding_all rfl, hu, hn, ?_⟩
  rw [hu, hn]
  simp

/-- Claim C3 (amended): command `u` advances to the current speaker's next
valid segment, changing no row of the mapping, no rejection and not the
current speaker; when no further segment exists it restarts from the
speaker's first valid segment with the repeat flag set (it does not reject
the speaker), and only when the speaker has no valid segment at all does it
leave the speaker's loop, still rejecting nothing. -/
theorem C3_next_segment_behavior (st : LoopState) :
    (∀ seg1 rest, uNextSegs st = seg1 :: rest →
       step st "u" = StepOut.cont (uAdvance st seg1)) ∧
    (uNextSegs st = [] → ∀ seg1 rest, st.speakerSegs.filter validClip = seg1 :: rest →
       step st "u" = StepOut.cont {st with segment := seg1, seen := [seg1.start], repeating := true}) ∧
    (uNextSegs st = [] → st.speakerSegs.filter validClip = [] →
       step st "u" = StepOut.breakSpk st) ∧
    (∀ st', step st "u" = StepOut.cont st' →
       st'.identified = st.identified ∧ st'.mapping = st.mapping ∧
       st'.speaker = st.speaker) := by
  refine ⟨?_, ?_, ?_, ?_⟩
  · intro seg1 rest h
    show uStep st = _
    rw [uStep, h]
  · intro h seg1 rest hv
    show uStep st = _
    rw [uStep, h, hv]
  · intro h hv
    show uStep st = _
    rw [uStep, h, hv]
  · intro st' h
    have h' : uStep st = StepOut.cont st' := h
    rw [uStep] at h'
    rcases hn : uNextSegs st with _ | ⟨seg1, rest⟩
    · rw [hn] at h'
      rcases hv : st.speakerSegs.filter validClip with _ | ⟨s1, r1⟩
      · rw [hv] at h'
        exact absurd h' (by simp)
      · rw [hv] at h'
        have := StepOut.cont.inj h'
        rw [← this]
        exact ⟨rfl, rfl, rfl⟩
    · rw [hn] at h'
      have := StepOut.cont.inj h'
      rw [← this]
      unfold uAdvance
      split <;> exact ⟨rfl, rfl, rfl⟩

/-- Concrete state for the C3 witness: speaker A with a later valid
segment available. -/
def c3stB : LoopState :=
  ⟨"f.wav", "A", [⟨"A", 0, 2⟩, ⟨"A", 3, 5⟩], ⟨"A", 0, 2⟩, [0], false, [], [], 0⟩

/-- Witness for C3 (amended): at the concrete state the `u` command advances
to the later valid segment. -/
theorem C3_next_segment_behavior_witness :
    step c3stB "u" = StepOut.cont (uAdvance c3stB ⟨"A", 3, 5⟩) :=
  (C3_next_segment_behavior c3stB).1 ⟨"A", 3, 5⟩ [] (by with_unfolding_all rfl)

/-- Claim C10: every segment presented to the operator, initially and after
any number of `u` commands, has a duration between 1 and 5 seconds
inclusive: the first conjunct spells out the filter, the second covers the
initially presented segment, the third shows every command that keeps the
loop running keeps the presented segment inside the filter. -/
theorem C10_presented_segment_duration :
    (∀ s : Segment, validClip s = true ↔
       (1 ≤ s.stop - s.start ∧ s.stop - s.start ≤ 5)) ∧
    (∀ segs seg, initialSegment segs = some seg → validClip seg = true) ∧
    (∀ st cmd st', validClip st.segment = true → step st cmd = StepOut.cont st' →
       validClip st'.segment = true) := by
  refine ⟨?_, ?_, ?_⟩
  · intro s
    simp [validClip, MIN_CLIP_LENGTH, MAX_CLIP_LENGTH]
  · intro segs seg h
    have hmem : seg ∈ segs.filter validClip := by
      have := List.getElem?_mem h
      simpa [initialSegment] using this
    exact (List.mem_filter.mp hmem).2
  · intro st cmd st' hval h
    unfold step at h
    split at h
    · exact absurd h (by simp)
    · exact absurd h (by simp)
    · rw [StepOut.cont.inj h] at hval
      exact hval
    · rw [uStep] at h
      rcases hn : uNextSegs st with _ | ⟨seg1, rest⟩
      · rw [hn] at h
        rcases hv : st.speakerSegs.filter validClip with _ | ⟨s1, r1⟩
        · rw [hv] at h
          exact absurd h (by simp)
        · rw [hv] at h
          rw [← StepOut.cont.inj h]
          have hmem : s1 ∈ st.speakerSegs.filter validClip := by
            rw [hv]
            exact List.mem_cons_self s1 r1
          exact (List.mem_filter.mp hmem).2
      · rw [hn] at h
        rw [← StepOut.cont.inj h]
        have hmem : seg1 ∈ uNextSegs st := by
          rw [hn]
          exact List.mem_cons_self seg1 rest
        have hval1 : validClip seg1 = true :=
          (List.mem_filter.mp (by simpa [uNextSegs] using hmem)).2
        unfold uAdvance
        split <;> simpa using hval1
    · exact absurd h (by simp)
    · rw [StepOut.cont.inj h] at hval
      exact hval

/-- Witness for C10 at concrete inputs: the initially presented segment of a
one-segment speaker is valid, and a replay command keeps a valid segment
valid. -/
theorem C10_presented_segment_duration_witness :
    validClip (Segment.mk "A" 0 2) = true ∧
    validClip ((⟨"f.wav", "A", [⟨"A", 0, 2⟩], ⟨"A", 0, 2⟩, [0], false, [], [], 0⟩ :
        LoopState).segment) = true := by
  constructor
  · exact C10_presented_segment_duration.2.1 [⟨"A", 0, 2⟩] ⟨"A", 0, 2⟩
      (by with_unfolding_all rfl)
  · exact C10_presented_segment_duration.2.2
      ⟨"f.wav", "A", [⟨"A", 0, 2⟩], ⟨"A", 0, 2⟩, [0], false, [], [], 0⟩ "a" _
      (by with_unfolding_all rfl) rfl

/-! ## Embedding extraction: idempotency gate
    (cross-rererence.py, `process_file_embeddings`, lines 276-364) -/

/-- The files `process_file_embeddings` may consult for one unit of work:
the persisted embedding artifact (`<base>_embeddings.pkl`, its record list
when the file exists), the diarization JSON and the WAV audio
(sample rate and samples). -/
structure ExtractionInput where
  artifact : Option (List EmbRecord)
  jsonSegs : Option (List Segment)
  wav : Option (Nat × List ℚ)
deriving Repr

/-- Embedding of `process_file_embeddings` (cross-rererence.py lines
276-364), returning the segment count, the status string, and whether the
audio file was read.  The existence checks come first: an existing artifact
returns `(1, "Embeddings already exist")` without touching JSON or WAV
(lines 286-287); a missing JSON or WAV returns the missing-file status
(lines 290-291); otherwise the audio is read, the target speaker's segments
are kept, segments shorter than one second of samples are dropped
(`end_sample - start_sample < sample_rate`, line 316, with Python's `int`
truncation of the nonnegative sample positions rendered as the floor), and
the number of embeddings produced from the slices by the model is abstracted
by the `embedCount` parameter (the batching loop of lines 330-355 only
affects which embeddings the model yields, not the branch structure). -/
def process_file_embeddings (embedCount : List (List ℚ) → Nat)
    (inp : ExtractionInput) (targetSpeaker : String) : Nat × String × Bool :=
  match inp.artifact with
  | some _ => (1, "Embeddings already exist", false)
  | none =>
    match inp.jsonSegs, inp.wav with
    | none, _ => (0, "Missing JSON or WAV file", false)
    | some _, none => (0, "Missing JSON or WAV file", false)
    | some segs, some (sampleRate, audio) =>
      let targetSegs := segs.filter (fun s => s.speaker == targetSpeaker)
      if targetSegs.isEmpty then (0, "No segments for target speaker", true)
      else
        let slices := targetSegs.filterMap (fun s =>
          let a := (Int.floor (s.start * sampleRate)).toNat
          let b := (Int.floor (s.stop * sampleRate)).toNat
          if b - a < sampleRate then none
          else some ((audio.drop a).take (b - a)))
        (embedCount slices, "Success", true)

/-- Five embedding records persisted for file `ep1`, as in Scenario C. -/
def fiveRecords : List EmbRecord :=
  [mkRec "ep1.wav" "S1", mkRec "ep1.wav" "S1", mkRec "ep1.wav" "S1",
   mkRec "ep1.wav" "S1", mkRec "ep1.wav" "S1"]

/-- Claim C5, counterexample: with an artifact of 5 records already present,
re-running extraction reports "Embeddings already exist" without reading the
audio, but the reported count is the constant 1, not the artifact's record
count 5 as the claim states. -/
theorem C5_counterexample :
    process_file_embeddings (fun l => l.length)
        ⟨some fiveRecords, none, none⟩ "S1" = (1, "Embeddings already exist", false) ∧
    fiveRecords.length = 5 ∧
    (process_file_embeddings (fun l => l.length)
        ⟨some fiveRecords, none, none⟩ "S1").1 ≠ fiveRecords.length := by
  refine ⟨rfl, rfl, by decide⟩

/-- Claim C5 (amended): whenever the embedding artifact for a file already
exists, re-running extraction returns status "Embeddings already exist" with
the constant count 1 (not the number of records stored in the artifact), and
does not open the audio file. -/
theorem C5_already_exists (embedCount : List (List ℚ) → Nat)
    (inp : ExtractionInput) (targetSpeaker : String) (records : List EmbRecord)
    (h : inp.artifact = some records) :
    process_file_embeddings embedCount inp targetSpeaker =
      (1, "Embeddings already exist", false) := by
  unfold process_file_embeddings
  rw [h]

/-- Witness for C5 (amended) at the Scenario C artifact of five records. -/
theorem C5_already_exists_witness :
    process_file_embeddings (fun l => l.length)
      ⟨some fiveRecords, none, none⟩ "S1" = (1, "Embeddings already exist", false) :=
  C5_already_exists (fun l => l.length) ⟨some fiveRecords, none, none⟩ "S1"
    fiveRecords rfl

/-! ## Waveform normalization before embedding extraction
    (cross-rererence.py, `process_batch` lines 189-193 and
    `extract_embedding` lines 256-259) -/

/-- Largest sample of a waveform, `waveform.max()` / `np.max(...)`; the
source only evaluates it on non-empty waveforms (an empty one raises), so
the `[]` case is an arbitrary default. -/
def maxSample (l : List ℚ) : ℚ :=
  match l with
  | [] => 0
  | x :: xs => xs.foldl max x

/-- Normalization applied on the speechbrain path (cross-rererence.py lines
190-192, and identically lines 246-248): divide by 32768 when the largest
signed sample exceeds 1.0 (`waveform.max() > 1.0`). -/
def speechbrainNormalize (w : List ℚ) : List ℚ :=
  if 1 < maxSample w then w.map (fun x => x / 32768) else w

/-- Normalization applied on the pyannote path (cross-rererence.py lines
214-216 and 257-259): divide by 32768 when the largest absolute sample
exceeds 1.0 (`np.max(np.abs(audio_float)) > 1.0`). -/
def pyannoteNormalize (w : List ℚ) : List ℚ :=
  if 1 < maxSample (w.map (fun x => |x|)) then w.map (fun x => x / 32768) else w

/-- Claim C6, counterexample: the waveform `[-2]` has magnitude 2 exceeding
1.0, so the claim requires division by 32768, but the speechbrain path
tests the signed maximum (-2, not above 1.0) and passes it through
unchanged. -/
theorem C6_counterexample :
    1 < maxSample (List.map (fun x => |x|) [(-2 : ℚ)]) ∧
    speechbrainNormalize [(-2 : ℚ)] = [(-2 : ℚ)] ∧
    List.map (fun x => x / 32768) [(-2 : ℚ)] ≠ [(-2 : ℚ)] := by
  refine ⟨?_, ?_, ?_⟩
  · norm_num [maxSample]
  · norm_num [speechbrainNormalize, maxSample]
  · norm_num

/-- Helper: a fold of `max` stays below a bound that dominates the
accumulator and every element. -/
theorem foldl_max_le {c : ℚ} (l : List ℚ) (acc : ℚ) (hacc : acc ≤ c)
    (h : ∀ x ∈ l, x ≤ c) : l.foldl max acc ≤ c := by
  induction l generalizing acc with
  | nil => exact hacc
  | cons x xs ih =>
    exact ih (max acc x) (max_le hacc (h x (List.mem_cons_self x xs)))
      (fun y hy => h y (List.mem_cons_of_mem x hy))

/-- Helper: every sample below the (nonnegative) bound keeps `maxSample`
below the bound. -/
theorem maxSample_le {c : ℚ} (w : List ℚ) (hc : 0 ≤ c) (h : ∀ x ∈ w, x ≤ c) :
    maxSample w ≤ c := by
  match w with
  | [] => exact hc
  | x :: xs =>
    exact foldl_max_le xs x (h x (List.mem_cons_self x xs))
      (fun y hy => h y (List.mem_cons_of_mem x hy))

/-- Claim C6 (amended): a waveform already inside [-1, 1] passes through both
normalization paths with its samples unchanged; when the largest signed
sample exceeds 1.0 the speechbrain path divides by 32768, and when the
magnitude (largest absolute sample) exceeds 1.0 the pyannote path divides by
32768 — the speechbrain path's condition is the signed maximum, not the
magnitude. -/
theorem C6_normalization (w : List ℚ) :
    ((∀ x ∈ w, |x| ≤ 1) →
       speechbrainNormalize w = w ∧ pyannoteNormalize w = w) ∧
    (1 < maxSample w → speechbrainNormalize w = w.map (fun x => x / 32768)) ∧
    (1 < maxSample (w.map (fun x => |x|)) →
       pyannoteNormalize w = w.map (fun x => x / 32768)) := by
  refine ⟨?_, ?_, ?_⟩
  · intro h
    constructor
    · have hle : maxSample w ≤ 1 :=
        maxSample_le w (by norm_num) (fun x hx => le_trans (le_abs_self x) (h x hx))
      simp [speechbrainNormalize, not_lt.mpr hle]
    · have hle : maxSample (w.map (fun x => |x|)) ≤ 1 := by
        refine maxSample_le _ (by norm_num) ?_
        intro y hy
        rcases List.mem_map.mp hy with ⟨x, hx, rfl⟩
        exact h x hx
      simp [pyannoteNormalize, not_lt.mpr hle]
  · intro h
    simp [speechbrainNormalize, h]
  · intro h
    simp [pyannoteNormalize, h]

/-- Witness for C6 (amended): a waveform inside [-1, 1] is unchanged on both
paths; one exceeding 1.0 is divided on the speechbrain path; one of large
magnitude is divided on the pyannote path. -/
theorem C6_normalization_witness :
    speechbrainNormalize [(1 : ℚ)/2] = [(1 : ℚ)/2] ∧
    pyannoteNormalize [(1 : ℚ)/2] = [(1 : ℚ)/2] ∧
    speechbrainNormalize [(2 : ℚ)] = List.map (fun x => x / 32768) [(2 : ℚ)] ∧
    pyannoteNormalize [(-2 : ℚ)] = List.map (fun x => x / 32768) [(-2 : ℚ)] := by
  have hin : ∀ x ∈ [(1 : ℚ)/2], |x| ≤ 1 := by
    intro x hx
    simp at hx
    subst hx
    rw [abs_of_nonneg (by norm_num)]
    norm_num
  have h1 := (C6_normalization [(1 : ℚ)/2]).1 hin
  have h2 := (C6_normalization [(2 : ℚ)]).2.1 (by norm_num [maxSample])
  have h3 := (C6_normalization [(-2 : ℚ)]).2.2 (by norm_num [maxSample])
  exact ⟨h1.1, h1.2, h2, h3⟩

/-! ## Speaker label matching
    (isolate-trim.py, `find_matching_speaker`, lines 44-95, and its
    skip-on-no-match use in `process_file`, lines 143-146) -/

/-- First maximal run of decimal digits in a character list, matching
`re.search(r'(\d+)', target)` when applied to a string's characters. -/
def firstNumberAux : List Char → Option String
  | [] => none
  | c :: cs =>
    if c.isDigit then some (String.mk ((c :: cs).takeWhile (fun d => d.isDigit)))
    else firstNumberAux cs

/-- The first number embedded in the target label,
`re.search(r'(\d+)', target_speaker)` (isolate-trim.py line 60). -/
def firstNumber (s : String) : Option String := firstNumberAux s.toList

/-- The tail of `find_matching_speaker` after the number-based strategies
(isolate-trim.py lines 78-95): strip a `REVIEW_` prefix from
`REVIEW_Speaker_X` targets, fall back to a singleton label set, then prefer
`Speaker_1` or `1`, else report no match. -/
def lateFallbacks (target : String) (avail : List String) : Option String :=
  if target.startsWith "REVIEW_Speaker_" && avail.contains (target.drop 7) then
    some (target.drop 7)
  else if avail.length == 1 then avail.head?
  else if avail.contains "Speaker_1" then some "Speaker_1"
  else if avail.contains "1" then some "1"
  else none

/-- Embedding of `find_matching_speaker` (isolate-trim.py lines 44-95).
The source's set of available speakers is modelled as the list of its
distinct elements in iteration order.  Strategies in source order: exact
membership; first case-insensitive hit; if the target contains a number,
that number itself, `Speaker_<number>`, and a (redundant) scan for the bare
number; then the late fallbacks of `lateFallbacks`. -/
def find_matching_speaker (target : String) (avail : List String) : Option String :=
  if avail.contains target then some target
  else
    match avail.find? (fun s => s.toLower == target.toLower) with
    | some s => some s
    | none =>
      match firstNumber target with
      | none => lateFallbacks target avail
      | some n =>
        if avail.contains n then some n
        else if avail.contains ("Speaker_" ++ n) then some ("Speaker_" ++ n)
        else
          match avail.find? (fun s => s == n) with
          | some s => some s
          | none => lateFallbacks target avail

/-- Claim C7, counterexample: for target "Alice" and labels
{"Speaker_1", "Bob"} every strategy of the claimed chain fails (no exact
match, no case-insensitive match, no number in the target, not a singleton),
so the claim requires no match and a skip — but the code resolves to
"Speaker_1" through its extra preference fallback. -/
theorem C7_counterexample :
    find_matching_speaker "Alice" ["Speaker_1", "Bob"] = some "Speaker_1" ∧
    ["Speaker_1", "Bob"].contains "Alice" = false ∧
    ["Speaker_1", "Bob"].find? (fun s => s.toLower == "Alice".toLower) = none ∧
    firstNumber "Alice" = none ∧
    ["Speaker_1", "Bob"].length ≠ 1 := by
  refine ⟨by with_unfolding_all rfl, rfl, by with_unfolding_all rfl, rfl, by decide⟩

/-- Helper characterizing when the late fallbacks yield no match. -/
theorem lateFallbacks_eq_none (target : String) (avail : List String) :
    lateFallbacks target avail = none ↔
      ((target.startsWith "REVIEW_Speaker_" && avail.contains (target.drop 7)) = false ∧
       avail.length ≠ 1 ∧
       avail.contains "Speaker_1" = false ∧
       avail.contains "1" = false) := by
  constructor
  · intro h
    unfold lateFallbacks at h
    split_ifs at h with h1 h2 h3 h4
    · have hlen : avail.length = 1 := by simpa using h2
      rcases (List.length_eq_one).mp hlen with ⟨a, rfl⟩
      simp at h
    · exact ⟨Bool.eq_false_iff.mpr h1, by simpa using h2,
            Bool.eq_false_iff.mpr h3, Bool.eq_false_iff.mpr h4⟩
  · rintro ⟨e1, e2, e3, e4⟩
    unfold lateFallbacks
    split_ifs with h1 h2 h3 h4
    · rw [e1] at h1
      exact Bool.noConfusion h1
    · exact absurd (by simpa using h2) e2
    · rw [e3] at h3
      exact Bool.noConfusion h3
    · rw [e4] at h4
      exact Bool.noConfusion h4
    · rfl

/-- Claim C7 (amended): label matching tries, in order, exact match,
case-insensitive match, first-number extraction (the number itself, then
`Speaker_<number>`, then a redundant scan), `REVIEW_` prefix stripping, the
singleton fallback, and finally a preference for `Speaker_1` or `1`; the
unit is skipped (no match) exactly when all of these fail.  Scenario D
still resolves `REVIEW_Speaker_2` against {"1","2","3"} to "2" via
number extraction. -/
theorem C7_matching_chain (target : String) (avail : List String) :
    (avail.contains target = true → find_matching_speaker target avail = some target) ∧
    (find_matching_speaker target avail = none ↔
      (avail.contains target = false ∧
       avail.find? (fun s => s.toLower == target.toLower) = none ∧
       (∀ n, firstNumber target = some n →
          avail.contains n = false ∧
          avail.contains ("Speaker_" ++ n) = false ∧
          avail.find? (fun s => s == n) = none) ∧
       (target.startsWith "REVIEW_Speaker_" && avail.contains (target.drop 7)) = false ∧
       avail.length ≠ 1 ∧
       avail.contains "Speaker_1" = false ∧
       avail.contains "1" = false)) ∧
    find_matching_speaker "REVIEW_Speaker_2" ["1", "2", "3"] = some "2" := by
  refine ⟨?_, ?_, by with_unfolding_all rfl⟩
  · intro h
    unfold find_matching_speaker
    rw [if_pos h]
  · unfold find_matching_speaker
    split_ifs with h1
    · constructor
      · intro h
        exact absurd h (by simp)
      · rintro ⟨e1, -⟩
        rw [h1] at e1
        exact Bool.noConfusion e1
    · split
      · rename_i s hs
        constructor
        · intro h
          exact absurd h (by simp)
        · rintro ⟨-, e2, -⟩
          rw [hs] at e2
          exact Option.noConfusion e2
      · rename_i hnone
        split
        · rename_i hfn
          rw [lateFallbacks_eq_none]
          constructor
          · rintro ⟨e4, e5, e6, e7⟩
            refine ⟨Bool.eq_false_iff.mpr h1, hnone, ?_, e4, e5, e6, e7⟩
            intro n hn
            rw [hfn] at hn
            exact Option.noConfusion hn
          · rintro ⟨-, -, -, e4, e5, e6, e7⟩
            exact ⟨e4, e5, e6, e7⟩
        · rename_i n hfn
          split_ifs with h4 h5
          · constructor
            · intro h
              exact absurd h (by simp)
            · rintro ⟨-, -, e3, -⟩
              have hc := (e3 n hfn).1
              rw [h4] at hc
              exact Bool.noConfusion hc
          · constructor
            · intro h
              exact absurd h (by simp)
            · rintro ⟨-, -, e3, -⟩
              have hc := (e3 n hfn).2.1
              rw [h5] at hc
              exact Bool.noConfusion hc
          · split
            · rename_i s hs
              constructor
              · intro h
                exact absurd h (by simp)
              · rintro ⟨-, -, e3, -⟩
                have hc := (e3 n hfn).2.2
                rw [hs] at hc
                exact Option.noConfusion hc
            · rename_i hs
              rw [lateFallbacks_eq_none]
              constructor
              · rintro ⟨e4, e5, e6, e7⟩
                refine ⟨Bool.eq_false_iff.mpr h1, hnone, ?_, e4, e5, e6, e7⟩
                intro m hm
                rw [hfn, Option.some.injEq] at hm
                subst hm
                exact ⟨Bool.eq_false_iff.mpr h4, Bool.eq_false_iff.mpr h5, hs⟩
              · rintro ⟨-, -, -, e4, e5, e6, e7⟩
                exact ⟨e4, e5, e6, e7⟩

/-- Witness for C7 (amended): the exact-match strategy fires on a present
label, and a target matched by nothing at all is reported as no match. -/
theorem C7_matching_chain_witness :
    find_matching_speaker "Bob" ["Alice", "Bob"] = some "Bob" ∧
    find_matching_speaker "Carol" ["Alice", "Bob"] = none := by
  constructor
  · exact (C7_matching_chain "Bob" ["Alice", "Bob"]).1 rfl
  · refine (C7_matching_chain "Carol" ["Alice", "Bob"]).2.1.mpr
      ⟨rfl, by with_unfolding_all rfl, ?_, by with_unfolding_all rfl,
       by decide, rfl, rfl⟩
    intro n hn
    have hnone : firstNumber "Carol" = none := by with_unfolding_all rfl
    rw [hnone] at hn
    exact Option.noConfusion hn

/-! ## Mapping repository: load or create
    (identify-speaker.py, `load_or_create_mapping_file`, lines 190-218) -/

/-- A CSV-backed table: its column names and its rows. -/
structure Table where
  cols : List String
  rows : List (List String)
deriving DecidableEq, Repr

/-- The expected column set of the file-target mapping table,
`["wav_file", "speaker"]` (identify-speaker.py line 197). -/
def expectedMappingCols : List String := ["wav_file", "speaker"]

/-- Embedding of `load_or_create_mapping_file` (identify-speaker.py lines
190-218) over the state of the backing file: absent (`none`), present but
unreadable (`some (Except.error e)`, the `pd.read_csv` exception path), or
present and parsed (`some (Except.ok t)`).  An absent or unreadable file is
replaced by an empty table with the expected columns; a parsed table is
returned as-is — the source performs no column check. -/
def load_or_create_mapping_file (file : Option (Except String Table)) : Table :=
  match file with
  | none => ⟨expectedMappingCols, []⟩
  | some (Except.error _) => ⟨expectedMappingCols, []⟩
  | some (Except.ok t) => t

/-- A readable mapping file whose columns do not match the expected
schema. -/
def badTable : Table := ⟨["foo", "bar"], [["x", "y"]]⟩

/-- Claim C8, counterexample: a present, readable mapping file whose columns
differ from the expected schema is returned with its mismatched contents
kept, not recreated as an empty table as the claim states. -/
theorem C8_counterexample :
    load_or_create_mapping_file (some (Except.ok badTable)) = badTable ∧
    badTable.cols ≠ expectedMappingCols ∧
    badTable ≠ Table.mk expectedMappingCols [] := by
  refine ⟨rfl, by decide, by decide⟩

/-- Claim C8 (amended): loading the file-target mapping creates an empty
table with exactly the expected column set when the backing file is absent,
and also when the file is present but cannot be parsed; a file that parses
is returned unchanged, whatever its columns — no schema comparison is
performed. -/
theorem C8_load_or_create (file : Option (Except String Table)) :
    (file = none →
       load_or_create_mapping_file file = Table.mk expectedMappingCols []) ∧
    (∀ e, file = some (Except.error e) →
       load_or_create_mapping_file file = Table.mk expectedMappingCols []) ∧
    (∀ t, file = some (Except.ok t) → load_or_create_mapping_file file = t) := by
  refine ⟨?_, ?_, ?_⟩
  · intro h
    rw [h]
    rfl
  · intro e h
    rw [h]
    rfl
  · intro t h
    rw [h]
    rfl

/-- Witness for C8 (amended): the absent, unreadable and readable cases at
concrete inputs. -/
theorem C8_load_or_create_witness :
    load_or_create_mapping_file none = Table.mk expectedMappingCols [] ∧
    load_or_create_mapping_file (some (Except.error "parse error")) =
      Table.mk expectedMappingCols [] ∧
    load_or_create_mapping_file (some (Except.ok badTable)) = badTable := by
  refine ⟨(C8_load_or_create none).1 rfl,
          (C8_load_or_create (some (Except.error "parse error"))).2.1 "parse error" rfl,
          (C8_load_or_create (some (Except.ok badTable))).2.2 badTable rfl⟩

/-! ## Cluster verification and saving
    (cross-rererence.py, `verify_clusters` lines 460-549 and
    `save_global_mapping` lines 552-576) -/

/-- One row of the global speaker mapping: the metadata of one clustered
embedding (cross-rererence.py lines 379-384, 422-423).  `is_verified` is
`none` while the key is absent from the underlying dict (rows never touched
by verification) and `some b` once verification has set it;  `stop` renders
the source's `end` field. -/
structure ClusterRow where
  file : String
  original_speaker : String
  global_speaker : String
  start : ℚ
  stop : ℚ
  is_verified : Option Bool
deriving DecidableEq, Repr

/-- The decision `verify_clusters` records for one cluster label
(cross-rererence.py lines 523-540), driven by the operator's yes/no answer
`ans` and rename entry `rename` for that label (both already stripped and
the answer lowercased, as the source does on input): answering `y` keeps
the generated label when the rename is empty, else uses the rename, and
verifies; any other answer renames to `REVIEW_<label>` and leaves the
cluster unverified. -/
def clusterDecision (ans rename : String → String) (label : String) :
    String × Bool :=
  if ans label = "y" then
    (if rename label = "" then label else rename label, true)
  else
    ("REVIEW_" ++ label, false)

/-- Embedding of `verify_clusters` (cross-rererence.py lines 460-549): the
loop over `cluster_examples` asks one question per distinct cluster label
(the example sampling of lines 468-484 only selects which segments are
played back, it does not affect the recorded decision), and the apply loop
of lines 543-547 rewrites every row's label and verification flag from the
decision recorded for its cluster; since a decision is a function of the
label alone and every label present in the rows is asked, this equals
mapping the per-label decision over the rows. -/
def verify_clusters (ans rename : String → String) (rows : List ClusterRow) :
    List ClusterRow :=
  rows.map (fun r =>
    {r with global_speaker := (clusterDecision ans rename r.global_speaker).1,
            is_verified := some (clusterDecision ans rename r.global_speaker).2})

/-- The `is_verified` value written by `save_global_mapping` for a row:
`item.get("is_verified", False)` (cross-rererence.py line 561). -/
def savedVerified (r : ClusterRow) : Bool := r.is_verified.getD false

/-- Embedding of `save_global_mapping` (cross-rererence.py lines 552-565):
one CSV record `(file, original_speaker, global_speaker, start, end,
is_verified)` per row, with a missing `is_verified` defaulting to false. -/
def save_global_mapping (rows : List ClusterRow) :
    List (String × String × String × ℚ × ℚ × Bool) :=
  rows.map (fun r =>
    (r.file, r.original_speaker, r.global_speaker, r.start, r.stop,
     savedVerified r))

/-- Claim C9: after cluster verification every row of a confirmed cluster is
verified and carries the operator's chosen name (the generated label when
the rename is empty), every row of an unconfirmed cluster is renamed to
`REVIEW_<original_label>` and unverified, and every row never reached by the
operator is saved with `is_verified = false`. -/
theorem C9_cluster_verification (ans rename : String → String)
    (rows : List ClusterRow) :
    (∀ (i : Nat) (r : ClusterRow), rows[i]? = some r →
       (verify_clusters ans rename rows)[i]? =
         some (if ans r.global_speaker = "y" then
                 {r with global_speaker :=
                           if rename r.global_speaker = "" then r.global_speaker
                           else rename r.global_speaker,
                         is_verified := some true}
               else
                 {r with global_speaker := "REVIEW_" ++ r.global_speaker,
                         is_verified := some false})) ∧
    (∀ (i : Nat) (r : ClusterRow), rows[i]? = some r →
       (save_global_mapping rows)[i]? =
         some (r.file, r.original_speaker, r.global_speaker, r.start, r.stop,
               r.is_verified.getD false)) ∧
    (∀ r : ClusterRow, r.is_verified = none → savedVerified r = false) := by
  refine ⟨?_, ?_, ?_⟩
  · intro i r h
    rw [verify_clusters, List.getElem?_map, h]
    simp only [Option.map_some']
    unfold clusterDecision
    split_ifs with h1 h2 <;> rfl
  · intro i r h
    rw [save_global_mapping, List.getElem?_map, h]
    simp only [Option.map_some']
    rfl
  · intro r h
    rw [savedVerified, h]
    rfl

/-- Concrete rows for the C9 witness: one cluster the operator confirms
without renaming, one they answer no to, and one never reached. -/
def c9rows : List ClusterRow :=
  [⟨"a.wav", "S1", "Speaker_1", 0, 2, none⟩,
   ⟨"b.wav", "S2", "Speaker_2", 1, 3, none⟩]

/-- Witness for C9: with the operator answering yes only for `Speaker_1` and
never renaming, the first row comes out verified under its generated label,
the second is renamed to `REVIEW_Speaker_2` unverified, and an untouched row
saves as unverified. -/
theorem C9_cluster_verification_witness :
    (verify_clusters (fun l => if l = "Speaker_1" then "y" else "n")
        (fun _ => "") c9rows)[0]? =
      some ⟨"a.wav", "S1", "Speaker_1", 0, 2, some true⟩ ∧
    (verify_clusters (fun l => if l = "Speaker_1" then "y" else "n")
        (fun _ => "") c9rows)[1]? =
      some ⟨"b.wav", "S2", "REVIEW_Speaker_2", 1, 3, some false⟩ ∧
    savedVerified ⟨"c.wav", "S3", "Speaker_3", 2, 4, none⟩ = false := by
  have h := C9_cluster_verification
    (fun l => if l = "Speaker_1" then "y" else "n") (fun _ => "") c9rows
  refine ⟨?_, ?_, h.2.2 ⟨"c.wav", "S3", "Speaker_3", 2, 4, none⟩ rfl⟩
  · have h0 := h.1 0 ⟨"a.wav", "S1", "Speaker_1", 0, 2, none⟩ rfl
    simpa using h0
  · have h1 := h.1 1 ⟨"b.wav", "S2", "Speaker_2", 1, 3, none⟩ rfl
    simpa using h1

end Toolkit
